/-
Verification of the mcp-server connection-adapter core against its
specification.

The definitions below are a shallow embedding of
`src/mcp-server/src/mcp_server/adapters/base.py`,
`src/mcp-server/src/mcp_server/adapters/rest.py`,
`src/mcp-server/src/mcp_server/adapters/mqtt.py` and
`src/mcp-server/src/mcp_server/core/registry.py`.

Modelling conventions:
- Python floats are modelled as rationals (exact arithmetic).
- Wall-clock timestamps (`datetime.now()`) are passed in explicitly as a
  natural-number clock parameter.
- Python exceptions become `Except` values; an `async` method that can
  raise is a function into `Except`; the raised exception message is the
  `String` payload.  A fallible external operation (the transport
  handshake, an HTTP POST, an MQTT publish) is a parameter of type
  `Except String _` or `Nat → Except String _` (outcome of the i-th call).
- Caller-supplied message/error handlers are opaque function values and
  are carried in a separate `HandlerEnv` record so that adapter state
  itself keeps decidable equality.
-/
import Mathlib

/-- `ConnectionStatus` enum, base.py:14-20. -/
inductive ConnectionStatus where
  | disconnected
  | connecting
  | connected
  | error
  | reconnecting
  deriving DecidableEq

/-- The `.value` string of each `ConnectionStatus` member (base.py:16-20). -/
def ConnectionStatus.value : ConnectionStatus → String
  | .disconnected => "disconnected"
  | .connecting => "connecting"
  | .connected => "connected"
  | .error => "error"
  | .reconnecting => "reconnecting"

/-- `ConnectionMetrics` dataclass, base.py:23-33. -/
structure ConnectionMetrics where
  connected_at : Option Nat := none
  messages_sent : Nat := 0
  messages_received : Nat := 0
  bytes_sent : Nat := 0
  bytes_received : Nat := 0
  last_activity : Option Nat := none
  errors : Nat := 0
  reconnect_attempts : Nat := 0
  deriving DecidableEq

/-- `AdapterConfig` dataclass, base.py:36-44.  The free-form `metadata`
dict is not modelled (no claim touches it). -/
structure AdapterConfig where
  name : String
  retry_max_attempts : Nat := 5
  retry_backoff_factor : ℚ := 2
  retry_max_delay : ℚ := 60
  timeout : ℚ := 30
  deriving DecidableEq

/-- The mutable state of one `BaseAdapter` instance (base.py:54-68),
minus the opaque callback fields (see `HandlerEnv`) and the asyncio task
set (pure bookkeeping of handles, not observable by any claim). -/
structure AdapterState where
  config : AdapterConfig
  status : ConnectionStatus
  metrics : ConnectionMetrics
  connection_id : Option String
  sample_buffer : List String
  status_message : String
  retry_delay : ℚ
  running : Bool
  deriving DecidableEq

/-- `BaseAdapter.__init__`, base.py:54-68. -/
def initAdapter (cfg : AdapterConfig) : AdapterState :=
  { config := cfg
    status := .disconnected
    metrics := {}
    connection_id := none
    sample_buffer := []
    status_message := "Connection not configured."
    retry_delay := 1
    running := false }

/-- The delay stored by `_retry_with_backoff` after the `attempt`-th
failure, base.py:238-241:
`min(delay * (self.config.retry_backoff_factor ** attempt), self.config.retry_max_delay)`
where the local `delay` is initialised to `1.0` (base.py:224) and never
reassigned, so the base unit is the fixed constant 1. -/
def computedRetryDelay (factor maxDelay : ℚ) (attempt : Nat) : ℚ :=
  min (1 * factor ^ attempt) maxDelay

/-- `self.metrics.reconnect_attempts += 1` on a failed attempt, base.py:231. -/
def noteFailure (st : AdapterState) : AdapterState :=
  { st with metrics :=
      { st.metrics with reconnect_attempts := st.metrics.reconnect_attempts + 1 } }

/-- The state update before sleeping and retrying, base.py:238-248:
store the computed delay and set status to `RECONNECTING`. -/
def noteRetry (factor maxDelay : ℚ) (attempt : Nat) (st : AdapterState) : AdapterState :=
  { st with
      status := .reconnecting
      retry_delay := computedRetryDelay factor maxDelay attempt }

/-- The state update when retries are exhausted, base.py:233-236: status
`ERROR` and the last fault recorded in the status message. -/
def noteExhausted (e : String) (st : AdapterState) : AdapterState :=
  { st with
      status := .error
      status_message := "Max retry attempts reached: " ++ e }

/-- Outcome of one run of `_retry_with_backoff`: the operation
succeeded (`return await coro()`), the last exception was re-raised
(`raise`), or the `while` loop never ran / ran out (only reachable when
`retry_max_attempts = 0`; the Python function then falls through and
returns `None`). -/
inductive RetryResult (α : Type) where
  | success (value : α) (st : AdapterState)
  | raised (msg : String) (st : AdapterState)
  | noAttempt (st : AdapterState)

/-- The `while attempt < self.config.retry_max_attempts` loop of
`_retry_with_backoff`, base.py:221-249.  `a` is the current value of the
local `attempt` counter; `op a` is the outcome of the call `await coro()`
made with `a` failures recorded so far; `fuel` bounds the iteration count
(the loop is always entered with `fuel = maxA - a`, which suffices since
`attempt` strictly increases toward `maxA`). -/
def retryLoop (op : Nat → Except String α) (maxA : Nat) (factor maxDelay : ℚ) :
    Nat → Nat → AdapterState → RetryResult α
  | a, fuel, st =>
    if a < maxA then
      match fuel with
      | 0 => .noAttempt st
      | fuel' + 1 =>
        match op a with
        | .ok v => .success v st
        | .error e =>
          let st1 := noteFailure st
          if maxA ≤ a + 1 then
            .raised e (noteExhausted e st1)
          else
            retryLoop op maxA factor maxDelay (a + 1) fuel'
              (noteRetry factor maxDelay (a + 1) st1)
    else .noAttempt st

/-- `BaseAdapter._retry_with_backoff`, base.py:221-249, started with
`attempt = 0`. -/
def retryWithBackoff (op : Nat → Except String α) (st : AdapterState) : RetryResult α :=
  retryLoop op st.config.retry_max_attempts st.config.retry_backoff_factor
    st.config.retry_max_delay 0 st.config.retry_max_attempts st

/-- A fallible operation that fails on its first `k` calls and then
succeeds with value `v` (the shape used by the retry scenarios in the
spec and in tests/test_adapters.py, `test_adapter_retry_logic`). -/
def failThenSucceed (k : Nat) (v : α) : Nat → Except String α :=
  fun i => if i < k then .error ("connect failure " ++ toString i) else .ok v

/-- A fallible operation that fails on every call, with `msgs i` the
message of the exception raised by the i-th call. -/
def alwaysFail (msgs : Nat → String) : Nat → Except String α :=
  fun i => .error (msgs i)

/-- The adapter state reached from `st` after the retry loop has recorded
failures for call indices `a, a+1, …, k-1` (no change when `k ≤ a`). -/
def afterFailures (factor maxDelay : ℚ) (st : AdapterState) (a k : Nat) : AdapterState :=
  if k ≤ a then st
  else
    { st with
        metrics :=
          { st.metrics with
              reconnect_attempts := st.metrics.reconnect_attempts + (k - a) }
        status := .reconnecting
        retry_delay := computedRetryDelay factor maxDelay k }

/-- `self._sample_buffer_size = 1000`, base.py:60. -/
def sample_buffer_size : Nat := 1000

/-- One insertion into the sample buffer, base.py:186-188: append the new
entry, then `pop(0)` (drop the oldest) once the configured capacity is
exceeded.  `cap` is `sample_buffer_size` in every real call; it is a
parameter so the eviction lemmas can be proved uniformly. -/
def bufferPush (cap : Nat) (buf : List String) (entry : String) : List String :=
  let b := buf ++ [entry]
  if cap < b.length then b.drop 1 else b

/-- Python slice `s[:k]` for an `Int` index `k`: a negative index counts
from the end (clamped at 0), a non-negative one from the start. -/
def pyTakeTo (l : List Char) (k : Int) : List Char :=
  if k < 0 then l.take ((l.length + k).toNat) else l.take k.toNat

/-- The text joined by `BaseAdapter.sample`, base.py:119:
`"\n".join(self._sample_buffer[-10:])`. -/
def joinedSample (buf : List String) : String :=
  String.intercalate "\n" (buf.drop (buf.length - 10))

/-- `BaseAdapter.sample`, base.py:106-125.  On an empty buffer return the
fixed sentinel; otherwise join the last 10 entries and, when the joined
text is longer than `n`, replace it by `sample[:n-3] + "..."` (note the
Python slice index `n - 3` is taken over the integers). -/
def sampleText (buf : List String) (n : Nat) : String :=
  if buf = [] then "No data available"
  else if n < (joinedSample buf).length then
    String.mk (pyTakeTo (joinedSample buf).data ((n : Int) - 3)) ++ "..."
  else joinedSample buf

/-- The replacement character U+FFFD produced by
`bytes.decode('utf-8', errors='replace')` on invalid input. -/
def replacementChar : Char := Char.ofNat 0xFFFD

/-- Is `b` a UTF-8 continuation byte (`0x80 ≤ b < 0xC0`)? -/
def isCont (b : Nat) : Bool := 0x80 ≤ b && b < 0xC0

/-- Lossy UTF-8 decoding of a byte list, modelling
`data.decode('utf-8', errors='replace')` (base.py:185): well-formed
sequences decode to their scalar value, malformed bytes become U+FFFD.
`fuel` starts at the list length; every step consumes at least one byte. -/
def utf8DecodeLossyAux : Nat → List Nat → List Char
  | 0, _ => []
  | _ + 1, [] => []
  | fuel + 1, b :: rest =>
    if b < 0x80 then Char.ofNat b :: utf8DecodeLossyAux fuel rest
    else if b < 0xC2 then replacementChar :: utf8DecodeLossyAux fuel rest
    else if b < 0xE0 then
      match rest with
      | c1 :: rest2 =>
        if isCont c1 then
          Char.ofNat ((b - 0xC0) * 0x40 + (c1 - 0x80)) :: utf8DecodeLossyAux fuel rest2
        else replacementChar :: utf8DecodeLossyAux fuel rest
      | [] => [replacementChar]
    else if b < 0xF0 then
      match rest with
      | c1 :: c2 :: rest3 =>
        let v := (b - 0xE0) * 0x1000 + (c1 - 0x80) * 0x40 + (c2 - 0x80)
        if isCont c1 && isCont c2 && decide (0x800 ≤ v) &&
            !(decide (0xD800 ≤ v) && decide (v < 0xE000)) then
          Char.ofNat v :: utf8DecodeLossyAux fuel rest3
        else replacementChar :: utf8DecodeLossyAux fuel rest
      | _ => replacementChar :: utf8DecodeLossyAux fuel rest
    else if b < 0xF5 then
      match rest with
      | c1 :: c2 :: c3 :: rest4 =>
        let v := (b - 0xF0) * 0x40000 + (c1 - 0x80) * 0x1000 +
          (c2 - 0x80) * 0x40 + (c3 - 0x80)
        if isCont c1 && isCont c2 && isCont c3 && decide (0x10000 ≤ v) &&
            decide (v < 0x110000) then
          Char.ofNat v :: utf8DecodeLossyAux fuel rest4
        else replacementChar :: utf8DecodeLossyAux fuel rest
      | _ => replacementChar :: utf8DecodeLossyAux fuel rest
    else replacementChar :: utf8DecodeLossyAux fuel rest

/-- Lossy UTF-8 decode of a payload. -/
def utf8DecodeLossy (bs : List Nat) : String :=
  String.mk (utf8DecodeLossyAux bs.length bs)

/-- `datetime.now().isoformat()` under the explicit `Nat` clock: the
timestamp rendered as text. -/
def isoTimestamp (now : Nat) : String := toString now

/-- The caller-supplied callbacks of one adapter (base.py:67-68,
169-175), carried separately because they are opaque function values.
`on_message data = true` models a handler call that returns normally,
`false` one that raises; `on_error` likewise (its result is discarded). -/
structure HandlerEnv where
  on_message : Option (List Nat → Bool)
  on_error : Option (List Nat → Bool)

/-- `BaseAdapter._handle_error`, base.py:200-209: increment `errors`,
then invoke the error handler if registered; an exception inside the
error handler is caught and logged (base.py:206-209), so the state
update is the same whether or not the handler raises. -/
def handleErrorState (env : HandlerEnv) (st : AdapterState) : AdapterState :=
  let st1 :=
    { st with metrics := { st.metrics with errors := st.metrics.errors + 1 } }
  match env.on_error with
  | none => st1
  | some _ => st1

/-- The unconditional part of `BaseAdapter._handle_received_data`,
base.py:179-188: bump `messages_received` and `bytes_received`, refresh
`last_activity`, append the timestamped decoded snippet to the sample
buffer.  (The `try/except` around the decode, base.py:184-190, is dead:
decoding with replacement never raises.) -/
def receiveUpdate (st : AdapterState) (data : List Nat) (now : Nat) : AdapterState :=
  { st with
      metrics :=
        { st.metrics with
            messages_received := st.metrics.messages_received + 1
            bytes_received := st.metrics.bytes_received + data.length
            last_activity := some now }
      sample_buffer :=
        bufferPush sample_buffer_size st.sample_buffer
          ("[" ++ isoTimestamp now ++ "] " ++ utf8DecodeLossy data) }

/-- `BaseAdapter._handle_received_data`, base.py:177-198: perform the
unconditional updates, then invoke the message handler if registered; a
handler exception is caught (base.py:194-198) and routed to
`_handle_error`, never propagated.  The function is total: no input
makes the receive path raise. -/
def handleReceivedData (env : HandlerEnv) (st : AdapterState) (data : List Nat)
    (now : Nat) : AdapterState :=
  match env.on_message with
  | none => receiveUpdate st data now
  | some f =>
    if f data then receiveUpdate st data now
    else handleErrorState env (receiveUpdate st data now)

/-- The state update on successfully sent data, rest.py:174-176 and
mqtt.py:131-133: `messages_sent += 1`, `bytes_sent += len(data)`. -/
def noteSent (st : AdapterState) (data : List Nat) : AdapterState :=
  { st with metrics :=
      { st.metrics with
          messages_sent := st.metrics.messages_sent + 1
          bytes_sent := st.metrics.bytes_sent + data.length } }

/-- `MQTTAdapter.send`, mqtt.py:114-139, for a byte payload (the HTTP
layer always passes bytes, main.py:171-174, so the `str` re-encoding
branch is not exercised).  `publish` is the outcome of the call
`await self._client.publish(...)`.  A raised error carries the adapter
state at the moment of the raise. -/
def mqttSend (st : AdapterState) (data : List Nat) (publish : Except String Unit)
    (env : HandlerEnv) : Except (String × AdapterState) AdapterState :=
  if st.status ≠ .connected then
    .error ("Not connected (status: " ++ st.status.value ++ ")", st)
  else
    match publish with
    | .ok _ => .ok (noteSent st data)
    | .error e => .error (e, handleErrorState env st)

/-- `RestAdapter.send`, rest.py:145-180, for a byte payload.  `post` is
the outcome of the transport write (the WebSocket send or the HTTP POST
together with `raise_for_status`); on failure the exception is routed to
`_handle_error` and then re-raised (rest.py:178-180). -/
def restSend (st : AdapterState) (data : List Nat) (post : Except String Unit)
    (env : HandlerEnv) : Except (String × AdapterState) AdapterState :=
  if st.status ≠ .connected then
    .error ("Not connected (status: " ++ st.status.value ++ ")", st)
  else
    match post with
    | .ok _ => .ok (noteSent st data)
    | .error e => .error (e, handleErrorState env st)

/-- `RestAdapter.connect`, rest.py:63-97: set status `CONNECTING`,
allocate a connection id, run the transport handshake (`_test_connection`
or `_connect_websocket`) under `_retry_with_backoff`; on success set
status `CONNECTED`, record `connected_at`, store "Connected" and start
the receive loop (`self._running = True`); on exhaustion the `except`
block records status `ERROR` with a "Failed to connect" message and
re-raises the exception.  `op i` is the outcome of the i-th handshake
attempt; `uuid` the generated connection id; `now` the clock. -/
def restConnect (op : Nat → Except String Unit) (uuid : String) (now : Nat)
    (st : AdapterState) : Except (String × AdapterState) AdapterState :=
  match retryWithBackoff op
      { st with status := .connecting, connection_id := some uuid } with
  | .success _ st2 =>
    .ok { st2 with
        status := .connected
        metrics := { st2.metrics with connected_at := some now }
        status_message := "Connected"
        running := true }
  | .noAttempt st2 =>
    .ok { st2 with
        status := .connected
        metrics := { st2.metrics with connected_at := some now }
        status_message := "Connected"
        running := true }
  | .raised e st2 =>
    .error (e, { st2 with
        status := .error
        status_message := "Failed to connect: " ++ e })

/-- The registry map `self._adapters`, registry.py:33, as an
insertion-ordered association list with the uniqueness of Python dict
keys. -/
abbrev Registry := List (String × AdapterState)

/-- `self._adapters.get(connection_id)` (registry.py:94, 107). -/
def lookupReg (reg : Registry) (id : String) : Option AdapterState :=
  (reg.find? (fun p => p.1 == id)).map (fun p => p.2)

/-- `self._adapters[connection_id] = adapter` (registry.py:84): overwrite
an existing key in place, otherwise append in insertion order. -/
def setReg (reg : Registry) (id : String) (ad : AdapterState) : Registry :=
  if (reg.find? (fun p => p.1 == id)).isSome then
    reg.map (fun p => if p.1 == id then (id, ad) else p)
  else reg ++ [(id, ad)]

/-- `del self._adapters[connection_id]` (registry.py:120); with unique
dict keys, filtering removes exactly the entry for `id`. -/
def removeReg (reg : Registry) (id : String) : Registry :=
  reg.filter (fun p => p.1 != id)

/-- `AdapterRegistry.ADAPTER_TYPES.keys()`, registry.py:19-25. -/
def knownAdapterTypes : List String := ["mqtt", "rest"]

/-- Result of `AdapterRegistry.create_connection`:  the final registry
map, the outcome returned or raised, and whether `adapter.connect()` was
invoked. -/
inductive CreateOutcome where
  | resumed (id : String) (ad : AdapterState)
  | created (id : String) (ad : AdapterState)
  | unknownType (msg : String)
  | connectFailed (msg : String)
  deriving DecidableEq

structure CreateResult where
  registry : Registry
  outcome : CreateOutcome
  connectInvoked : Bool
  deriving DecidableEq

/-- The create-new path of `create_connection`, registry.py:63-90:
validate the adapter type, build the adapter from the config, invoke its
connect operation; on success register it under `id`, on failure
re-raise and register nothing. -/
def createConnectionNew (reg : Registry) (adapterType : String) (cfg : AdapterConfig)
    (id : String) (op : Nat → Except String Unit) (uuid : String) (now : Nat) :
    CreateResult :=
  if adapterType ∈ knownAdapterTypes then
    match restConnect op uuid now (initAdapter cfg) with
    | .ok ad => ⟨setReg reg id ad, .created id ad, true⟩
    | .error (e, _) => ⟨reg, .connectFailed e, true⟩
  else
    ⟨reg, .unknownType ("Unknown adapter type: " ++ adapterType), false⟩

/-- `AdapterRegistry.create_connection`, registry.py:36-90.  The resume
check `if connection_id and connection_id in self._adapters` (line 58)
uses Python truthiness: an empty-string id is falsy, skips the resume
check, and `connection_id or str(uuid4())` (line 71) then substitutes the
fresh id `freshId`.  `op` is the connect operation of the new adapter
instance (the transport handshake attempts). -/
def createConnection (reg : Registry) (adapterType : String) (cfg : AdapterConfig)
    (connectionId : Option String) (op : Nat → Except String Unit)
    (freshId uuid : String) (now : Nat) : CreateResult :=
  match connectionId with
  | some id =>
    if id = "" then createConnectionNew reg adapterType cfg freshId op uuid now
    else
      match lookupReg reg id with
      | some ad => ⟨reg, .resumed id ad, false⟩
      | none => createConnectionNew reg adapterType cfg id op uuid now
  | none => createConnectionNew reg adapterType cfg freshId op uuid now

/-- `AdapterRegistry.disconnect`, registry.py:96-122: unknown id returns
`False` with the map untouched; otherwise run the graceful disconnect
(or, when `force`, merely clear the running flag), catch and log any
exception it raises (registry.py:111-118), then delete the entry and
return `True`.  `graceful` is the outcome of `await adapter.disconnect()`. -/
def registryDisconnect (reg : Registry) (id : String) (force : Bool)
    (graceful : AdapterState → Except String AdapterState) : Registry × Bool :=
  match lookupReg reg id with
  | none => (reg, false)
  | some ad =>
    let _after : AdapterState :=
      if force then { ad with running := false }
      else
        match graceful ad with
        | .ok st => st
        | .error _ => ad
    (removeReg reg id, true)

/-- `BaseAdapter._calculate_message_rate`, base.py:211-219. -/
def messageRate (st : AdapterState) (now : Nat) : ℚ :=
  match st.metrics.connected_at with
  | none => 0
  | some t =>
    let dur : ℚ := (now : ℚ) - (t : ℚ)
    if 0 < dur then (st.metrics.messages_received : ℚ) / dur else 0

/-- The body of the `async def status` method, base.py:127-150.  This
method is dead code: the instance attribute `self.status` assigned in
`__init__` (base.py:56) shadows it, so it can never be invoked (see
`statusAttrLookup`).  Number formatting (`:.0f`, float repr) is rendered
via `toString` on the exact rational. -/
def statusTextBody (st : AdapterState) (now : Nat) : String :=
  if st.status = .connected then
    if 0 < st.metrics.messages_received then
      "OK – streaming " ++ toString (messageRate st now) ++ " msg/s ... (sample follows)"
    else "OK – connected, waiting for data"
  else if st.status = .reconnecting then
    "Connection configured but unreachable: retrying (back-off " ++
      toString st.retry_delay ++ " s)."
  else if st.status = .error then
    "Connection error: " ++ st.status_message
  else if st.status = .connecting then "Connecting..."
  else st.status_message

/-- What Python attribute lookup can yield for `adapter.status`. -/
inductive StatusAttr where
  | enumValue (s : ConnectionStatus)
  | boundMethod (f : AdapterState → Nat → String)

/-- Python attribute lookup for `adapter.status`: instance attributes
take precedence over class attributes, and `BaseAdapter.__init__`
unconditionally assigns the instance attribute
`self.status = ConnectionStatus.DISCONNECTED` (base.py:56), which every
later state change reassigns.  The lookup therefore always yields the
enum value and never falls through to the class-level method
`BaseAdapter.status` (base.py:127). -/
def statusAttrLookup (st : AdapterState) : StatusAttr :=
  .enumValue st.status

/-- The call `await adapter.status()` (main.py:112, 137, 152): calling
the looked-up attribute.  A `ConnectionStatus` enum member is not
callable, so the call raises `TypeError`. -/
def callStatus (st : AdapterState) (now : Nat) : Except String String :=
  match statusAttrLookup st with
  | .enumValue _ => .error "TypeError: ConnectionStatus object is not callable"
  | .boundMethod f => .ok (f st now)

/-- `get_status` endpoint, main.py:129-137. -/
def getStatusEndpoint (reg : Registry) (cid : String) (now : Nat) :
    Except String String :=
  match lookupReg reg cid with
  | none => .ok "Connection not found."
  | some ad => callStatus ad now

/-- `get_sample` endpoint, main.py:140-155. -/
def getSampleEndpoint (reg : Registry) (cid : String) (n : Nat) (now : Nat) :
    Except String String :=
  match lookupReg reg cid with
  | none => .ok "Connection not found."
  | some ad =>
    match callStatus ad now with
    | .error e => .error e
    | .ok s => .ok (s ++ "\n\n" ++ sampleText ad.sample_buffer n)

/-- A minimal configuration (only the required `name`, defaults for the
rest, mirroring `AdapterConfig(name="test")` in tests/test_adapters.py). -/
def exampleConfig : AdapterConfig :=
  { name := "test" }

/-- The configuration of the retry scenario in the spec (§8):
`AdapterConfig(retryMaxAttempts=3, backoffFactor=2.0, maxDelay=10.0)`. -/
def scenarioConfig : AdapterConfig :=
  { name := "test"
    retry_max_attempts := 3
    retry_backoff_factor := 2
    retry_max_delay := 10 }

/-- A freshly initialised adapter whose status has been set to
`CONNECTED`. -/
def stConnectedExample : AdapterState :=
  { initAdapter exampleConfig with status := .connected }

/-- A registry holding one live connection under id "a". -/
def regExample : Registry := [("a", initAdapter exampleConfig)]

/-- A message handler that always raises. -/
def failingHandler : List Nat → Bool := fun _ => false

/-- No handlers registered. -/
def envNone : HandlerEnv := ⟨none, none⟩

/-- A failing message handler registered, no error handler. -/
def envFail : HandlerEnv := ⟨some failingHandler, none⟩

/-- A graceful disconnect that raises. -/
def gracefulBoom : AdapterState → Except String AdapterState :=
  fun _ => .error "disconnect failure"

lemma afterFailures_self (f d : ℚ) (st : AdapterState) (k : Nat) :
    afterFailures f d st k k = st := by
  simp [afterFailures]

lemma afterFailures_step (f d : ℚ) (st : AdapterState) (a k : Nat) (h : a < k) :
    afterFailures f d (noteRetry f d (a + 1) (noteFailure st)) (a + 1) k =
      afterFailures f d st a k := by
  rcases Nat.lt_or_ge (a + 1) k with h1 | h1
  · cases st with
    | mk c s m cid buf msg rd run =>
      cases m
      simp only [afterFailures, noteRetry, noteFailure]
      rw [if_neg (by omega), if_neg (by omega)]
      simp only [AdapterState.mk.injEq, ConnectionMetrics.mk.injEq, and_true, true_and]
      omega
  · have hk1 : k = a + 1 := by omega
    subst hk1
    cases st with
    | mk c s m cid buf msg rd run =>
      cases m
      simp only [afterFailures, noteRetry, noteFailure]
      rw [if_pos (by omega), if_neg (by omega)]
      simp only [AdapterState.mk.injEq, ConnectionMetrics.mk.injEq, and_true, true_and]
      omega

lemma retryLoop_failThenSucceed {α : Type} (maxA : Nat) (f d : ℚ) (k : Nat) (v : α)
    (hk : k < maxA) :
    ∀ (fuel a : Nat) (st : AdapterState), a ≤ k → k < a + fuel →
      retryLoop (failThenSucceed k v) maxA f d a fuel st =
        .success v (afterFailures f d st a k) := by
  intro fuel
  induction fuel with
  | zero => intro a st h1 h2; omega
  | succ fuel ih =>
    intro a st h1 h2
    rw [retryLoop]
    rw [if_pos (by omega : a < maxA)]
    rcases Nat.lt_or_ge a k with hak | hak
    · have hop : failThenSucceed k v a = .error ("connect failure " ++ toString a) := by
        simp [failThenSucceed, hak]
      simp only [hop]
      rw [if_neg (by omega : ¬ maxA ≤ a + 1)]
      rw [ih (a + 1) _ (by omega) (by omega)]
      rw [afterFailures_step f d st a k hak]
    · have hak' : a = k := le_antisymm h1 hak
      subst hak'
      have hop : failThenSucceed a v a = .ok v := by
        simp [failThenSucceed]
      simp only [hop]
      rw [afterFailures_self]

lemma retryLoop_alwaysFail {α : Type} (maxA : Nat) (f d : ℚ) (msgs : Nat → String) :
    ∀ (fuel a : Nat) (st : AdapterState), a < maxA → maxA ≤ a + fuel →
      retryLoop (alwaysFail msgs : Nat → Except String α) maxA f d a fuel st =
        .raised (msgs (maxA - 1))
          (noteExhausted (msgs (maxA - 1))
            (noteFailure (afterFailures f d st a (maxA - 1)))) := by
  intro fuel
  induction fuel with
  | zero => intro a st h1 h2; omega
  | succ fuel ih =>
    intro a st h1 h2
    rw [retryLoop]
    rw [if_pos h1]
    have hop : (alwaysFail msgs : Nat → Except String α) a = .error (msgs a) := rfl
    simp only [hop]
    rcases Nat.lt_or_ge (a + 1) maxA with h3 | h3
    · rw [if_neg (by omega : ¬ maxA ≤ a + 1)]
      rw [ih (a + 1) _ (by omega) (by omega)]
      rw [afterFailures_step f d st a (maxA - 1) (by omega)]
    · rw [if_pos h3]
      have ha : a = maxA - 1 := by omega
      subst ha
      rw [afterFailures_self]

lemma restConnect_of_success (op : Nat → Except String Unit) (uuid : String)
    (now : Nat) (st st2 : AdapterState)
    (h : retryWithBackoff op
        { st with status := .connecting, connection_id := some uuid } =
      .success () st2) :
    restConnect op uuid now st =
      .ok { st2 with
          status := .connected
          metrics := { st2.metrics with connected_at := some now }
          status_message := "Connected"
          running := true } := by
  unfold restConnect
  rw [h]

lemma restConnect_of_raised (op : Nat → Except String Unit) (uuid : String)
    (now : Nat) (st st2 : AdapterState) (e : String)
    (h : retryWithBackoff op
        { st with status := .connecting, connection_id := some uuid } =
      .raised e st2) :
    restConnect op uuid now st =
      .error (e, { st2 with
          status := .error
          status_message := "Failed to connect: " ++ e }) := by
  unfold restConnect
  rw [h]

lemma lookupReg_removeReg (reg : Registry) (id : String) :
    lookupReg (removeReg reg id) id = none := by
  induction reg with
  | nil => rfl
  | cons p tl ih =>
    by_cases hp : p.1 = id
    · simp only [removeReg, lookupReg, List.filter_cons] at ih ⊢
      simp only [hp, bne_self_eq_false, Bool.false_eq_true, if_false]
      exact ih
    · simp only [removeReg, lookupReg, List.filter_cons] at ih ⊢
      have hb : (p.1 != id) = true := by simp [hp]
      rw [if_pos hb, List.find?_cons]
      have hb2 : (p.1 == id) = false := by simp [hp]
      rw [hb2]
      exact ih

lemma bufferPush_length_le (cap : Nat) (buf : List String) (e : String)
    (h : buf.length ≤ cap) : (bufferPush cap buf e).length ≤ cap := by
  unfold bufferPush
  by_cases hlt : cap < (buf ++ [e]).length
  · rw [if_pos hlt]
    simp only [List.length_drop, List.length_append, List.length_singleton]
    omega
  · rw [if_neg hlt]
    simp only [List.length_append, List.length_singleton] at hlt ⊢
    omega

lemma bufferPushAll_eq (cap : Nat) :
    ∀ (es buf : List String), buf.length ≤ cap →
      List.foldl (bufferPush cap) buf es =
        (buf ++ es).drop (buf.length + es.length - cap) := by
  intro es
  induction es with
  | nil =>
    intro buf h
    simp [Nat.sub_eq_zero_of_le h]
  | cons e tl ih =>
    intro buf h
    rw [List.foldl_cons]
    have hlen1 : (buf ++ [e]).length = buf.length + 1 := by simp
    by_cases hfull : buf.length < cap
    · have hpush : bufferPush cap buf e = buf ++ [e] := by
        unfold bufferPush
        rw [if_neg (by rw [hlen1]; omega)]
      rw [hpush, ih (buf ++ [e]) (by rw [hlen1]; omega)]
      have h1 : (buf ++ [e]) ++ tl = buf ++ e :: tl := by simp
      have h2 : (buf ++ [e]).length + tl.length - cap =
          buf.length + (e :: tl).length - cap := by
        rw [hlen1, List.length_cons]; omega
      rw [h1, h2]
    · have hpush : bufferPush cap buf e = (buf ++ [e]).drop 1 := by
        unfold bufferPush
        rw [if_pos (by rw [hlen1]; omega)]
      have hlen2 : ((buf ++ [e]).drop 1).length = buf.length := by
        rw [List.length_drop, hlen1]; omega
      rw [hpush, ih _ (by rw [hlen2]; omega)]
      rw [← List.drop_append_of_le_length (by rw [hlen1]; omega : 1 ≤ (buf ++ [e]).length)]
      rw [List.drop_drop]
      have h1 : (buf ++ [e]) ++ tl = buf ++ e :: tl := by simp
      have h2 : 1 + (((buf ++ [e]).drop 1).length + tl.length - cap) =
          buf.length + (e :: tl).length - cap := by
        rw [hlen2, List.length_cons]; omega
      rw [h1, h2]

lemma handleErrorState_eq (env : HandlerEnv) (st : AdapterState) :
    handleErrorState env st =
      { st with metrics := { st.metrics with errors := st.metrics.errors + 1 } } := by
  unfold handleErrorState
  rcases h : env.on_error with _ | g <;> rfl

lemma handleReceivedData_sample_buffer (env : HandlerEnv) (st : AdapterState)
    (data : List Nat) (now : Nat) :
    (handleReceivedData env st data now).sample_buffer =
      bufferPush sample_buffer_size st.sample_buffer
        ("[" ++ isoTimestamp now ++ "] " ++ utf8DecodeLossy data) := by
  unfold handleReceivedData
  split
  · rfl
  · split
    · rfl
    · rw [handleErrorState_eq]
      rfl

/-- C1: the claim states that the status-text and sample query operations
always return a string and never raise, with the "Connection not found."
sentinel for an unknown id.  The unknown-id sentinel does hold, but for a
LIVE connection both endpoints raise `TypeError`: the instance attribute
`self.status` assigned in `BaseAdapter.__init__` (base.py:56) shadows the
`async def status` method (base.py:127), so `await adapter.status()`
calls a `ConnectionStatus` enum value.  This theorem evaluates the
endpoints at the failing input (a registry holding one freshly
constructed adapter under id "c1"). -/
theorem status_endpoint_raises_for_live_connection :
    getStatusEndpoint [("c1", initAdapter exampleConfig)] "c1" 0 =
      .error "TypeError: ConnectionStatus object is not callable" ∧
    getSampleEndpoint [("c1", initAdapter exampleConfig)] "c1" 256 0 =
      .error "TypeError: ConnectionStatus object is not callable" ∧
    getStatusEndpoint [("c1", initAdapter exampleConfig)] "missing" 0 =
      .ok "Connection not found." ∧
    getSampleEndpoint [("c1", initAdapter exampleConfig)] "missing" 256 0 =
      .ok "Connection not found." :=
  ⟨rfl, rfl, rfl, rfl⟩

/-- C2: for every attempt ≥ 1, factor > 1 and cap, the delay computed by
the retry/backoff executor before the next retry equals
`min(base_unit * factor ^ attempt, maxDelay)` with the fixed base unit 1
(not compounded from the previous delay), it is non-decreasing in the
attempt count, and the delay actually stored by a run of
`_retry_with_backoff` that failed `attempt` times agrees with the
formula. -/
theorem retry_backoff_delay_formula (factor maxDelay : ℚ) (attempt : Nat)
    (hf : 1 < factor) (ha : 1 ≤ attempt) :
    computedRetryDelay factor maxDelay attempt = min (1 * factor ^ attempt) maxDelay ∧
    (∀ a b : Nat, a ≤ b →
      computedRetryDelay factor maxDelay a ≤ computedRetryDelay factor maxDelay b) ∧
    (∀ (cfg : AdapterConfig) (v : String) (st1 : AdapterState),
      cfg.retry_backoff_factor = factor → cfg.retry_max_delay = maxDelay →
      attempt < cfg.retry_max_attempts →
      retryWithBackoff (failThenSucceed attempt v) (initAdapter cfg) =
        .success v st1 →
      st1.retry_delay = computedRetryDelay factor maxDelay attempt) := by
  refine ⟨rfl, ?_, ?_⟩
  · intro a b hab
    unfold computedRetryDelay
    refine min_le_min ?_ le_rfl
    rw [one_mul, one_mul]
    exact pow_le_pow_right₀ (le_of_lt hf) hab
  · intro cfg v st1 h1 h2 h3 h4
    subst h1
    subst h2
    have hrun := retryLoop_failThenSucceed cfg.retry_max_attempts
      cfg.retry_backoff_factor cfg.retry_max_delay attempt v h3
      cfg.retry_max_attempts 0 (initAdapter cfg) (Nat.zero_le _) (by omega)
    have h4' : RetryResult.success v
        (afterFailures cfg.retry_backoff_factor cfg.retry_max_delay
          (initAdapter cfg) 0 attempt) =
        RetryResult.success (α := String) v st1 := by
      rw [← hrun]
      exact h4
    injection h4' with _ hst
    rw [← hst]
    unfold afterFailures
    rw [if_neg (by omega)]

/-- Witness for C2 at `factor = 2`, `maxDelay = 60`, `attempt = 1`. -/
theorem retry_backoff_delay_formula_witness :
    (1 : ℚ) < 2 ∧ (1 : Nat) ≤ 1 ∧
    computedRetryDelay 2 60 1 = min ((1 : ℚ) * 2 ^ 1) 60 :=
  ⟨one_lt_two, le_refl 1, (retry_backoff_delay_formula 2 60 1 one_lt_two (le_refl 1)).1⟩

/-- C7: when the supplied connection id already maps to a live adapter,
`create_connection` returns that same instance with the registry map
unchanged, invokes no connect attempt, and the result is independent of
the newly supplied configuration (and of every other argument of the
create-new path). -/
theorem resume_returns_same_instance (reg : Registry) (id : String)
    (ad : AdapterState) (t : String) (cfg cfg' : AdapterConfig)
    (op op' : Nat → Except String Unit) (freshId freshId' uuid uuid' : String)
    (now now' : Nat) (hid : id ≠ "") (h : lookupReg reg id = some ad) :
    createConnection reg t cfg (some id) op freshId uuid now =
      ⟨reg, .resumed id ad, false⟩ ∧
    createConnection reg t cfg (some id) op freshId uuid now =
      createConnection reg t cfg' (some id) op' freshId' uuid' now' := by
  constructor
  · simp only [createConnection]
    rw [if_neg hid, h]
  · simp only [createConnection]
    rw [if_neg hid, h, if_neg hid]

/-- Witness for C7: a registry holding one live connection under "a". -/
theorem resume_returns_same_instance_witness :
    ("a" : String) ≠ "" ∧
    lookupReg regExample "a" = some (initAdapter exampleConfig) ∧
    createConnection regExample "mqtt" scenarioConfig (some "a")
        (failThenSucceed 0 ()) "fresh" "uuid" 0 =
      ⟨regExample, .resumed "a" (initAdapter exampleConfig), false⟩ :=
  ⟨by decide, rfl,
    (resume_returns_same_instance regExample "a" (initAdapter exampleConfig)
      "mqtt" scenarioConfig exampleConfig (failThenSucceed 0 ())
      (failThenSucceed 1 ()) "fresh" "fresh2" "uuid" "uuid2" 0 1
      (by decide) rfl).1⟩

/-- C8: `send` on an adapter whose status is not `Connected` rejects
with a not-connected `ConnectionError` and leaves the adapter state (in
particular every metrics counter) unchanged; a successful send
increments `messages_sent` by one and `bytes_sent` by the payload
length.  Both the MQTT and the REST implementation are covered. -/
theorem send_requires_connected_and_counts (st : AdapterState) (data : List Nat)
    (pub : Except String Unit) (env : HandlerEnv) :
    (st.status ≠ .connected →
      mqttSend st data pub env =
        .error ("Not connected (status: " ++ st.status.value ++ ")", st) ∧
      restSend st data pub env =
        .error ("Not connected (status: " ++ st.status.value ++ ")", st)) ∧
    (st.status = .connected →
      mqttSend st data (.ok ()) env = .ok (noteSent st data) ∧
      restSend st data (.ok ()) env = .ok (noteSent st data) ∧
      (noteSent st data).metrics.messages_sent = st.metrics.messages_sent + 1 ∧
      (noteSent st data).metrics.bytes_sent = st.metrics.bytes_sent + data.length) := by
  constructor
  · intro h
    constructor
    · unfold mqttSend
      rw [if_pos h]
    · unfold restSend
      rw [if_pos h]
  · intro h
    have hn : ¬ st.status ≠ ConnectionStatus.connected := not_not_intro h
    refine ⟨?_, ?_, rfl, rfl⟩
    · unfold mqttSend
      rw [if_neg hn]
    · unfold restSend
      rw [if_neg hn]

/-- Witness for C8: a disconnected adapter rejects, a connected one
counts. -/
theorem send_requires_connected_and_counts_witness :
    (initAdapter exampleConfig).status ≠ .connected ∧
    mqttSend (initAdapter exampleConfig) [1, 2, 3] (.ok ()) envNone =
      .error ("Not connected (status: " ++
        (initAdapter exampleConfig).status.value ++ ")", initAdapter exampleConfig) ∧
    stConnectedExample.status = .connected ∧
    mqttSend stConnectedExample [1, 2, 3] (.ok ()) envNone =
      .ok (noteSent stConnectedExample [1, 2, 3]) :=
  ⟨by decide,
    ((send_requires_connected_and_counts (initAdapter exampleConfig) [1, 2, 3]
      (.ok ()) envNone).1 (by decide)).1,
    rfl,
    ((send_requires_connected_and_counts stConnectedExample [1, 2, 3]
      (.ok ()) envNone).2 rfl).1⟩

/-- C10: for a registered id, `AdapterRegistry.disconnect` with
`force = false` removes the id from the map and returns `True` whatever
the graceful disconnect does — an exception it raises is caught and
never surfaced (the result type carries no error channel and the
deletion happens regardless of `graceful`); an unknown id yields `False`
with the map unchanged. -/
theorem disconnect_removes_and_swallows (reg : Registry) (id : String)
    (graceful : AdapterState → Except String AdapterState) :
    ((lookupReg reg id).isSome →
      registryDisconnect reg id false graceful = (removeReg reg id, true) ∧
      lookupReg (removeReg reg id) id = none) ∧
    (lookupReg reg id = none →
      registryDisconnect reg id false graceful = (reg, false)) := by
  constructor
  · intro h
    rcases hlk : lookupReg reg id with _ | ad
    · rw [hlk] at h
      simp at h
    · refine ⟨?_, lookupReg_removeReg reg id⟩
      unfold registryDisconnect
      rw [hlk]
  · intro h
    unfold registryDisconnect
    rw [h]

/-- Witness for C10: one registered connection whose graceful disconnect
raises. -/
theorem disconnect_removes_and_swallows_witness :
    (lookupReg regExample "a").isSome = true ∧
    registryDisconnect regExample "a" false gracefulBoom =
      (removeReg regExample "a", true) :=
  ⟨rfl, ((disconnect_removes_and_swallows regExample "a" gracefulBoom).1 rfl).1⟩

lemma afterFailures_reconnects (f d : ℚ) (st : AdapterState) (a k : Nat) :
    (afterFailures f d st a k).metrics.reconnect_attempts =
      st.metrics.reconnect_attempts + (k - a) := by
  unfold afterFailures
  by_cases h : k ≤ a
  · rw [if_pos h, Nat.sub_eq_zero_of_le h]
    omega
  · rw [if_neg h]

/-- C3: a connect operation whose handshake fails exactly
`k < retry_max_attempts` times and then succeeds leaves
`reconnect_attempts = k`, leaves the adapter `Connected`, and
`_retry_with_backoff` returns the operation's success value to the
caller. -/
theorem connect_retry_success_counts (cfg : AdapterConfig) (k : Nat) (v : String)
    (uuid : String) (now : Nat) (hk : k < cfg.retry_max_attempts) :
    (∃ st1, retryWithBackoff (failThenSucceed k v) (initAdapter cfg) =
        .success v st1 ∧ st1.metrics.reconnect_attempts = k) ∧
    (∃ st2, restConnect (failThenSucceed k ()) uuid now (initAdapter cfg) =
        .ok st2 ∧ st2.metrics.reconnect_attempts = k ∧ st2.status = .connected) := by
  have hrun : retryWithBackoff (failThenSucceed k v) (initAdapter cfg) =
      .success v (afterFailures cfg.retry_backoff_factor cfg.retry_max_delay
        (initAdapter cfg) 0 k) :=
    retryLoop_failThenSucceed cfg.retry_max_attempts cfg.retry_backoff_factor
      cfg.retry_max_delay k v hk cfg.retry_max_attempts 0 (initAdapter cfg)
      (Nat.zero_le _) (by omega)
  have hrun2 : retryWithBackoff (failThenSucceed k ())
      { initAdapter cfg with status := .connecting, connection_id := some uuid } =
      .success () (afterFailures cfg.retry_backoff_factor cfg.retry_max_delay
        { initAdapter cfg with status := .connecting, connection_id := some uuid }
        0 k) :=
    retryLoop_failThenSucceed cfg.retry_max_attempts cfg.retry_backoff_factor
      cfg.retry_max_delay k () hk cfg.retry_max_attempts 0 _
      (Nat.zero_le _) (by omega)
  constructor
  · refine ⟨_, hrun, ?_⟩
    rw [afterFailures_reconnects]
    show 0 + (k - 0) = k
    omega
  · refine ⟨_, restConnect_of_success (failThenSucceed k ()) uuid now
      (initAdapter cfg) _ hrun2, ?_, rfl⟩
    show (afterFailures cfg.retry_backoff_factor cfg.retry_max_delay
      { initAdapter cfg with status := .connecting, connection_id := some uuid }
      0 k).metrics.reconnect_attempts = k
    rw [afterFailures_reconnects]
    show 0 + (k - 0) = k
    omega

/-- Witness for C3, the spec scenario: `retryMaxAttempts = 3`, two
failures then success, ending with `reconnect_attempts = 2` and the
success value returned. -/
theorem connect_retry_success_counts_witness :
    2 < scenarioConfig.retry_max_attempts ∧
    (∃ st1, retryWithBackoff (failThenSucceed 2 "ok") (initAdapter scenarioConfig) =
        .success "ok" st1 ∧ st1.metrics.reconnect_attempts = 2) :=
  ⟨by decide,
    (connect_retry_success_counts scenarioConfig 2 "ok" "uuid" 0 (by decide)).1⟩

/-- C4: a connect operation whose handshake fails `retry_max_attempts`
times in a row ends with status `Error`, the last fault recorded in the
status message, the error re-raised to the caller with no further
retries (exactly `retry_max_attempts` failures are counted), and
`create_connection` adds no entry to the registry map. -/
theorem connect_retry_exhaustion (cfg : AdapterConfig) (msgs : Nat → String)
    (uuid freshId : String) (now : Nat) (reg : Registry)
    (h1 : 1 ≤ cfg.retry_max_attempts) :
    (∃ st2, restConnect (alwaysFail msgs) uuid now (initAdapter cfg) =
        .error (msgs (cfg.retry_max_attempts - 1), st2) ∧
      st2.status = .error ∧
      st2.status_message =
        "Failed to connect: " ++ msgs (cfg.retry_max_attempts - 1) ∧
      st2.metrics.reconnect_attempts = cfg.retry_max_attempts) ∧
    createConnection reg "rest" cfg none (alwaysFail msgs) freshId uuid now =
      ⟨reg, .connectFailed (msgs (cfg.retry_max_attempts - 1)), true⟩ := by
  have hrun : retryWithBackoff (alwaysFail msgs : Nat → Except String Unit)
      { initAdapter cfg with status := .connecting, connection_id := some uuid } =
      .raised (msgs (cfg.retry_max_attempts - 1))
        (noteExhausted (msgs (cfg.retry_max_attempts - 1))
          (noteFailure (afterFailures cfg.retry_backoff_factor cfg.retry_max_delay
            { initAdapter cfg with status := .connecting, connection_id := some uuid }
            0 (cfg.retry_max_attempts - 1)))) :=
    retryLoop_alwaysFail cfg.retry_max_attempts cfg.retry_backoff_factor
      cfg.retry_max_delay msgs cfg.retry_max_attempts 0 _ (by omega) (by omega)
  have hconn := restConnect_of_raised (alwaysFail msgs) uuid now
    (initAdapter cfg) _ _ hrun
  constructor
  · refine ⟨_, hconn, rfl, rfl, ?_⟩
    show (noteExhausted (msgs (cfg.retry_max_attempts - 1))
      (noteFailure (afterFailures cfg.retry_backoff_factor cfg.retry_max_delay
        { initAdapter cfg with status := .connecting, connection_id := some uuid }
        0 (cfg.retry_max_attempts - 1)))).metrics.reconnect_attempts =
      cfg.retry_max_attempts
    show (afterFailures cfg.retry_backoff_factor cfg.retry_max_delay
      { initAdapter cfg with status := .connecting, connection_id := some uuid }
      0 (cfg.retry_max_attempts - 1)).metrics.reconnect_attempts + 1 =
      cfg.retry_max_attempts
    rw [afterFailures_reconnects]
    show 0 + (cfg.retry_max_attempts - 1 - 0) + 1 = cfg.retry_max_attempts
    omega
  · simp only [createConnection, createConnectionNew]
    rw [if_pos (by decide : ("rest" : String) ∈ knownAdapterTypes), hconn]

/-- Witness for C4: the spec scenario configuration with a handshake
that always fails. -/
theorem connect_retry_exhaustion_witness :
    1 ≤ scenarioConfig.retry_max_attempts ∧
    createConnection regExample "rest" scenarioConfig none
        (alwaysFail (fun i => "boom " ++ toString i)) "fresh" "uuid" 0 =
      ⟨regExample,
        .connectFailed ("boom " ++ toString (scenarioConfig.retry_max_attempts - 1)),
        true⟩ :=
  ⟨by decide,
    (connect_retry_exhaustion scenarioConfig (fun i => "boom " ++ toString i)
      "uuid" "fresh" 0 regExample (by decide)).2⟩

/-- C5, counterexample: the claim asserts the sample string length never
exceeds `n` for every `n ≥ 0`, but at `n = 0` with one buffered entry of
10 characters the Python slice `sample[:n-3]` has the negative index
`-3`, which counts from the end, so the result
(`"abcdefg" ++ "..."`, 10 characters) is longer than `n`. -/
theorem sample_exceeds_requested_length :
    ¬ (sampleText ["abcdefghij"] 0).length ≤ 0 := by decide

/-- C5, amended: for every `n ≥ 3` and nonempty buffer the sample query
returns a string of length ≤ n, appending the "..." marker (the result
is the sliced prefix of the joined text followed by "...") exactly when
the joined last-10-entries text is longer than `n`; an empty buffer
returns the fixed "No data available" sentinel (whose length, 17, is
independent of `n`). -/
theorem sample_length_bound (buf : List String) (n : Nat) (h3 : 3 ≤ n)
    (hbuf : buf ≠ []) :
    (sampleText buf n).length ≤ n ∧
    (n < (joinedSample buf).length →
      sampleText buf n =
        String.mk ((joinedSample buf).data.take (n - 3)) ++ "...") ∧
    (∀ m : Nat, sampleText [] m = "No data available") := by
  have hneg : ¬ ((n : Int) - 3 < 0) := by omega
  have him : ((n : Int) - 3).toNat = n - 3 := by omega
  refine ⟨?_, ?_, fun m => rfl⟩
  · unfold sampleText
    rw [if_neg hbuf]
    by_cases hlen : n < (joinedSample buf).length
    · rw [if_pos hlen]
      rw [String.length_append]
      unfold pyTakeTo
      rw [if_neg hneg, him]
      have h1 : (String.mk ((joinedSample buf).data.take (n - 3))).length ≤ n - 3 := by
        show ((joinedSample buf).data.take (n - 3)).length ≤ n - 3
        rw [List.length_take]
        exact min_le_left _ _
      have h2 : ("..." : String).length = 3 := rfl
      omega
    · rw [if_neg hlen]
      omega
  · intro hlen
    unfold sampleText
    rw [if_neg hbuf, if_pos hlen]
    unfold pyTakeTo
    rw [if_neg hneg, him]

/-- Witness for C5 amended at a nonempty buffer and `n = 5`. -/
theorem sample_length_bound_witness :
    (3 : Nat) ≤ 5 ∧ (["hello world sample entry"] : List String) ≠ [] ∧
    (sampleText ["hello world sample entry"] 5).length ≤ 5 :=
  ⟨by decide, by decide,
    (sample_length_bound ["hello world sample entry"] 5 (by decide) (by decide)).1⟩

/-- C6: every completed inbound-data handling step leaves the sample
buffer within its configured capacity (1000), and inserting
`capacity + m` entries into an empty buffer leaves exactly the most
recent `capacity` entries in insertion order — the oldest `m` are
evicted. -/
theorem sample_buffer_capacity_eviction (entries : List String) (m : Nat)
    (h : entries.length = sample_buffer_size + m) :
    List.foldl (bufferPush sample_buffer_size) [] entries = entries.drop m ∧
    (∀ (env : HandlerEnv) (st : AdapterState) (data : List Nat) (now : Nat),
      st.sample_buffer.length ≤ sample_buffer_size →
      (handleReceivedData env st data now).sample_buffer.length ≤
        sample_buffer_size) := by
  constructor
  · have hall := bufferPushAll_eq sample_buffer_size entries [] (by simp)
    rw [hall]
    simp only [List.nil_append, List.length_nil]
    rw [h]
    have hidx : 0 + (sample_buffer_size + m) - sample_buffer_size = m := by omega
    rw [hidx]
  · intro env st data now hlen
    rw [handleReceivedData_sample_buffer]
    exact bufferPush_length_le _ _ _ hlen

/-- Witness for C6 at `capacity + 1` identical entries. -/
theorem sample_buffer_capacity_eviction_witness :
    (List.replicate (sample_buffer_size + 1) "x").length = sample_buffer_size + 1 ∧
    List.foldl (bufferPush sample_buffer_size) []
        (List.replicate (sample_buffer_size + 1) "x") =
      (List.replicate (sample_buffer_size + 1) "x").drop 1 :=
  ⟨by simp, (sample_buffer_capacity_eviction _ 1 (by simp)).1⟩

/-- C9: the common receive procedure increments `messages_received` by
one, adds `len(data)` to `bytes_received`, sets `last_activity` to the
current time, appends the timestamped lossily-decoded snippet to the
sample buffer, and — when a message handler is registered — a handler
that raises routes to the error path (incrementing `errors`) while a
handler that returns normally (or no handler) leaves `errors` unchanged;
the procedure is total, so nothing propagates out of it. -/
theorem receive_path_metrics_and_isolation (env : HandlerEnv) (st : AdapterState)
    (data : List Nat) (now : Nat) :
    (handleReceivedData env st data now).metrics.messages_received =
      st.metrics.messages_received + 1 ∧
    (handleReceivedData env st data now).metrics.bytes_received =
      st.metrics.bytes_received + data.length ∧
    (handleReceivedData env st data now).metrics.last_activity = some now ∧
    (handleReceivedData env st data now).sample_buffer =
      bufferPush sample_buffer_size st.sample_buffer
        ("[" ++ isoTimestamp now ++ "] " ++ utf8DecodeLossy data) ∧
    (∀ f, env.on_message = some f → f data = false →
      (handleReceivedData env st data now).metrics.errors =
        st.metrics.errors + 1) ∧
    (∀ f, env.on_message = some f → f data = true →
      (handleReceivedData env st data now).metrics.errors = st.metrics.errors) ∧
    (env.on_message = none →
      (handleReceivedData env st data now).metrics.errors = st.metrics.errors) := by
  have hbranch : handleReceivedData env st data now = receiveUpdate st data now ∨
      handleReceivedData env st data now =
        handleErrorState env (receiveUpdate st data now) := by
    unfold handleReceivedData
    split
    · exact Or.inl rfl
    · split
      · exact Or.inl rfl
      · exact Or.inr rfl
  refine ⟨?_, ?_, ?_, handleReceivedData_sample_buffer env st data now, ?_, ?_, ?_⟩
  · rcases hbranch with hb | hb <;> rw [hb] <;>
      first | rfl | (rw [handleErrorState_eq]; rfl)
  · rcases hbranch with hb | hb <;> rw [hb] <;>
      first | rfl | (rw [handleErrorState_eq]; rfl)
  · rcases hbranch with hb | hb <;> rw [hb] <;>
      first | rfl | (rw [handleErrorState_eq]; rfl)
  · intro f hf hfd
    unfold handleReceivedData
    rw [hf]
    show (if f data = true then receiveUpdate st data now
      else handleErrorState env (receiveUpdate st data now)).metrics.errors =
      st.metrics.errors + 1
    rw [hfd]
    show (handleErrorState env (receiveUpdate st data now)).metrics.errors =
      st.metrics.errors + 1
    rw [handleErrorState_eq]
    rfl
  · intro f hf hfd
    unfold handleReceivedData
    rw [hf]
    show (if f data = true then receiveUpdate st data now
      else handleErrorState env (receiveUpdate st data now)).metrics.errors =
      st.metrics.errors
    rw [hfd]
    rfl
  · intro hf
    unfold handleReceivedData
    rw [hf]
    rfl

/-- Witness for C9: a registered handler that raises on payload `[104]`
routes to the error path while the counters still update. -/
theorem receive_path_metrics_and_isolation_witness :
    envFail.on_message = some failingHandler ∧ failingHandler [104] = false ∧
    (handleReceivedData envFail (initAdapter exampleConfig) [104] 7).metrics.errors =
      (initAdapter exampleConfig).metrics.errors + 1 ∧
    (handleReceivedData envFail (initAdapter exampleConfig) [104]
        7).metrics.messages_received =
      (initAdapter exampleConfig).metrics.messages_received + 1 :=
  ⟨rfl, rfl,
    (receive_path_metrics_and_isolation envFail (initAdapter exampleConfig)
      [104] 7).2.2.2.2.1 failingHandler rfl rfl,
    (receive_path_metrics_and_isolation envFail (initAdapter exampleConfig)
      [104] 7).1⟩
